import Mathlib

/-!
# Verification of the IoT sensor API (`api/main.py`)

A shallow embedding of the device-state aggregation and query-translation
layer of the IoT sensor HTTP API, together with proofs of its specified
properties.

## Modelling conventions

* A Python `datetime.datetime` is modelled by `PyDateTime`: the wall-clock
  fields are collapsed into `wall`, the number of seconds the wall-clock
  reading lies after 1970-01-01T00:00:00 (the fields are read as if they were
  UTC), `micro` holds the `microsecond` field and `tz` the optional fixed
  UTC offset of `tzinfo`, in seconds.  `replace`, `astimezone` and
  `isoformat` translate directly into this representation.
* `datetime.fromisoformat` belongs to the Python standard library (an
  external collaborator of the code under verification).  Functions that
  call it receive its result for the relevant string as an explicit
  `Option PyDateTime` argument (`none` models a raised `ValueError`).
* The InfluxDB engine and the MQTT broker are external systems.  Where a
  claim only needs "the store call failed / returned these records", the
  store's answer is an oracle argument; where a claim is about the Flux
  pipeline text that the code ships to the store, the pipeline's documented
  primitives (`range`, `filter`, `union`, `pivot`, `distinct`, `unique`,
  `sort`, `last`, group + last) are modelled on lists of records.
* Sensor field values are only carried through, never computed with, so
  they are modelled as `Rat`.
-/

namespace IotSensorApi

/-- A Python `datetime.datetime`: wall-clock seconds since the epoch of the
naive reading, the `microsecond` field, and the fixed utcoffset of its
`tzinfo` in seconds (`none` = naive). -/
structure PyDateTime where
  wall : Int
  micro : Nat
  tz : Option Int
deriving DecidableEq, Repr

/-- `MOSCOW_TZ = dt.timezone(dt.timedelta(hours=3))`: fixed offset +3h,
in seconds. -/
def MOSCOW_OFF : Int := 10800

/-- `datetime.astimezone(target)`: keep the instant, move the wall clock to
the target offset.  All call sites in `api/main.py` first ensure the value
is aware; the `none` branch (Python would consult the system timezone,
here taken to be UTC) is unreachable in this development. -/
def astimezone (d : PyDateTime) (off : Int) : PyDateTime :=
  match d.tz with
  | some o => ⟨d.wall - o + off, d.micro, some off⟩
  | none => ⟨d.wall + off, d.micro, some off⟩

/-- Zero-padded two-digit rendering of a (nonnegative) component. -/
def pad2 (n : Int) : String :=
  if n < 10 then "0" ++ toString n else toString n

/-- Zero-padded four-digit rendering of the year, as Python `isoformat`
prints years 1–9999. -/
def pad4 (n : Int) : String :=
  if n < 10 then "000" ++ toString n
  else if n < 100 then "00" ++ toString n
  else if n < 1000 then "0" ++ toString n
  else toString n

/-- Civil date from a count of days since 1970-01-01 (proleptic Gregorian
calendar, Howard Hinnant's `civil_from_days` algorithm): `(year, month, day)`.
`Int./` is Euclidean division, which agrees with floor division here because
every divisor is positive. -/
def civilFromDays (z0 : Int) : Int × Int × Int :=
  let z := z0 + 719468
  let era := z / 146097
  let doe := z - era * 146097
  let yoe := (doe - doe / 1460 + doe / 36524 - doe / 146096) / 365
  let y := yoe + era * 400
  let doy := doe - (365 * yoe + yoe / 4 - yoe / 100)
  let mp := (5 * doy + 2) / 153
  let d := doy - (153 * mp + 2) / 5 + 1
  let m := mp + (if mp < 10 then 3 else -9)
  (y + (if m ≤ 2 then 1 else 0), m, d)

/-- `YYYY-MM-DDTHH:MM:SS` rendering of a wall-clock value, i.e. Python
`datetime.isoformat` restricted to whole seconds and without any offset
suffix. -/
def renderDateSec (wall : Int) : String :=
  let days := wall / 86400
  let sod := wall % 86400
  let ymd := civilFromDays days
  pad4 ymd.1 ++ "-" ++ pad2 ymd.2.1 ++ "-" ++ pad2 ymd.2.2 ++ "T" ++
    pad2 (sod / 3600) ++ ":" ++ pad2 (sod % 3600 / 60) ++ ":" ++ pad2 (sod % 60)

/-- The `±HH:MM` suffix `isoformat` appends for an aware value; empty for a
naive one.  The offsets of this program (UTC and Moscow) are whole minutes,
so the seconds part of the offset never appears. -/
def renderOffset : Option Int → String
  | none => ""
  | some off =>
    if off < 0 then "-" ++ pad2 (-off / 3600) ++ ":" ++ pad2 (-off % 3600 / 60)
    else "+" ++ pad2 (off / 3600) ++ ":" ++ pad2 (off % 3600 / 60)

/-- Zero-padded six-digit rendering of the microsecond field. -/
def pad6 (n : Nat) : String :=
  (List.replicate (6 - (toString n).length) '0').asString ++ toString n

/-- Python `datetime.isoformat()` with the default `timespec="auto"`:
microseconds are printed exactly when nonzero. -/
def isoformatAuto (d : PyDateTime) : String :=
  renderDateSec d.wall ++ (if d.micro = 0 then "" else "." ++ pad6 d.micro) ++
    renderOffset d.tz

/-- Python `datetime.isoformat(timespec="seconds")`. -/
def isoformatSec (d : PyDateTime) : String :=
  renderDateSec d.wall ++ renderOffset d.tz

/-- `iso_seconds_moscow` (`api/main.py:91`): naive input is stamped UTC,
the instant is moved to the Moscow offset, microseconds and the timezone
are dropped, and the result is rendered with `timespec="seconds"`. -/
def iso_seconds_moscow : Option PyDateTime → Option String
  | none => none
  | some ts =>
    let ts1 := match ts.tz with
      | none => ⟨ts.wall, ts.micro, some 0⟩
      | some _ => ts
    let moscow_time := astimezone ts1 MOSCOW_OFF
    some (isoformatSec ⟨moscow_time.wall, 0, none⟩)

/-- The datetime computed inside the `try` of `parse_moscow_time_to_utc`
(`api/main.py:105`) from a successfully parsed input: re-stamp the parsed
value with the Moscow offset (discarding any offset the parse produced) and
move it to UTC.  This is "the resulting UTC instant" of the round trip. -/
def parse_moscow_to_utc_dt (moscow_dt : PyDateTime) : PyDateTime :=
  astimezone ⟨moscow_dt.wall, moscow_dt.micro, some MOSCOW_OFF⟩ 0

/-- `parse_moscow_time_to_utc` (`api/main.py:105`).  `fromiso` is the result
of `dt.datetime.fromisoformat(time_str)`: `some d` when the parse succeeds,
`none` when it raises `ValueError`, in which case the original string is
returned unchanged. -/
def parse_moscow_time_to_utc (fromiso : Option PyDateTime) (time_str : String) :
    String :=
  match fromiso with
  | some moscow_dt => isoformatAuto (parse_moscow_to_utc_dt moscow_dt)
  | none => time_str

/-- Python truthiness of an `Optional[str]`: `None` and `""` are falsy. -/
def truthyOpt : Option String → Bool
  | none => false
  | some s => s != ""

/-- Python `a or b` on `Optional[str]` values: `a` if truthy, else `b`. -/
def pyOr (a b : Option String) : Option String :=
  if truthyOpt a then a else b

/-- `verify_token` (`api/main.py:38`): `provided` is the first truthy value
among query token, `X-API-Token` header, bearer credentials and `api_token`
cookie; access is granted (`true`) unless the configured `API_TOKEN` is
missing/empty or `provided` differs from it (Python raises a 401
`HTTPException`, modelled by `false`). -/
def verify_token (api_token token_q token_h bearer token_cookie :
    Option String) : Bool :=
  let provided := pyOr (pyOr (pyOr token_q token_h) bearer) token_cookie
  if !truthyOpt api_token || provided != api_token then false else true

/-- The first truthy entry of a list of optional strings, `none` if there is
none.  Spec-side description of the gate's token selection, used to state
the amended form of the Access Gate claim against `verify_token`. -/
def firstTruthy : List (Option String) → Option String
  | [] => none
  | x :: xs => if truthyOpt x then x else firstTruthy xs

/-- Spec-side (amended) description of the Access Gate: access is granted
exactly when a non-empty secret is configured and the first non-empty token
among (query, header, bearer, cookie) — in that order — equals it. -/
def grantedSpec (api_token token_q token_h bearer token_cookie :
    Option String) : Bool :=
  match api_token with
  | none => false
  | some s =>
      (s != "") &&
        (firstTruthy [token_q, token_h, bearer, token_cookie] == some s)

/-- An outgoing HTTP response as far as the cookie middleware observes it:
a status code and the cookies set on it, in order. -/
structure HttpResponse where
  statusCode : Nat
  cookies : List (String × String)
deriving DecidableEq, Repr

/-- `response.set_cookie(name, value, ...)`: record one more cookie on the
response (the `httponly`/`samesite`/`secure` attributes carry no logic). -/
def set_cookie (r : HttpResponse) (n v : String) : HttpResponse :=
  ⟨r.statusCode, r.cookies ++ [(n, v)]⟩

/-- `persist_token_cookie` (`api/main.py:71`): after the inner handler has
produced `response`, set the `api_token` cookie to the request's `token`
query parameter — but only when that parameter is truthy (`if token:`). -/
def persist_token_cookie (queryToken : Option String)
    (response : HttpResponse) : HttpResponse :=
  match queryToken with
  | some token =>
      if token != "" then set_cookie response "api_token" token else response
  | none => response

/-- One record of the status-stream query of `device_status`
(`api/main.py:171`): its `_value` and `_time`. -/
structure StatusQueryRec where
  value : String
  time : PyDateTime
deriving DecidableEq, Repr

/-- The shape of the `device_status` result (`api/main.py:205`). -/
structure StatusResponse where
  deviceid : String
  online : Bool
  statustime : Option String
  lastdatatime : Option String
deriving DecidableEq, Repr

/-- `device_status` (`api/main.py:165`).  The two store queries are external;
their record streams (already filtered to the device, grouped, `last()`)
are the arguments.  The Python `for` loops overwrite `status_val`,
`status_ts` and `last_data_ts` on every record, leaving the last record's
fields or `None`; `online` is `status_val == "online"` where `status_val`
may be `None`. -/
def device_status (deviceid : String) (statusRecs : List StatusQueryRec)
    (dataTimes : List PyDateTime) : StatusResponse :=
  let status_val : Option String := (statusRecs.map (·.value)).getLast?
  let status_ts : Option PyDateTime := (statusRecs.map (·.time)).getLast?
  let last_data_ts : Option PyDateTime := dataTimes.getLast?
  ⟨deviceid, status_val == some "online", iso_seconds_moscow status_ts,
    iso_seconds_moscow last_data_ts⟩

/-- The fixed predicate list of `delete_device` (`api/main.py:294`), in
source order: current schema names (`bme280`/`status`) plus the alternative
names (`sensors`/`devices`), each scoped to the device. -/
def predicates (device_id : String) : List String :=
  ["_measurement=\"bme280\" AND deviceid=\"" ++ device_id ++ "\"",
   "_measurement=\"status\" AND deviceid=\"" ++ device_id ++ "\"",
   "_measurement=\"sensors\" AND deviceid=\"" ++ device_id ++ "\"",
   "_measurement=\"devices\" AND deviceid=\"" ++ device_id ++ "\""]

/-- The `DeleteResult` model of `api/main.py:274`; `influx_deleted` keeps
the Python dict's insertion order. -/
structure DeleteResult where
  device_id : String
  influx_deleted : List (String × Bool)
  mqtt_cleared : Bool
deriving DecidableEq, Repr

/-- `delete_device` (`api/main.py:280`).  `delete_api.delete` and the MQTT
connect/publish/disconnect block are external calls; `deleteOk pred` models
"the delete call for `pred` did not raise" (the per-predicate
`try`/`except` records `false` on an exception) and `mqttOk` models "the
whole MQTT block ran without raising". -/
def delete_device (device_id : String) (deleteOk : String → Bool)
    (mqttOk : Bool) : DeleteResult :=
  let deleted := (predicates device_id).foldl
    (fun acc pred => acc ++ [(pred, deleteOk pred)]) []
  ⟨device_id, deleted, mqttOk⟩

/-- A raw record of the two data streams as the store holds it: a UTC
timestamp (seconds), the measurement name, the device tag, the field name
and the field's numeric value (values are only carried through, so `Rat`
stands in for the store's floats). -/
structure RawSample where
  time : Int
  measurement : String
  deviceid : String
  field : String
  value : Rat
deriving DecidableEq, Repr

/-- One row of the pivoted result of the `device_data` Flux pipeline after
`keep`: the timestamp and the three field columns, absent when no record
with that field shares the timestamp. -/
structure PivotRow where
  time : Int
  temperature : Option Rat
  humidity : Option Rat
  pressure : Option Rat
deriving DecidableEq, Repr

/-- First-occurrence deduplication, the documented behaviour of the Flux
`distinct`/`unique` primitives on a stream of values. -/
def distinctFirst {α : Type} [DecidableEq α] (l : List α) : List α :=
  l.foldl (fun acc x => if x ∈ acc then acc else acc ++ [x]) []

/-- The cell the Flux `pivot` produces for row key `t` and column key `f`:
the value of the last matching record, absent when none matches. -/
def pivotCell (rows : List RawSample) (t : Int) (f : String) : Option Rat :=
  ((rows.filter (fun r => r.time == t && r.field == f)).map
    (fun r => r.value)).getLast?

/-- The Flux pipeline that `device_data` (`api/main.py:232`) ships to the
store, modelled on the store's documented primitives: two `range`-and-
`filter`ed streams (`sensors` and `bme280`, both restricted to the device
and to `[start, stop)` — Flux ranges include `start` and exclude `stop`),
`union`ed and then `pivot`ed on `_time` with `_field` as the column key;
`keep` retains the three sensor columns.  Pivot rows appear in first-
occurrence order of their timestamps. -/
def fluxDataQuery (deviceid : String) (startI stopI : Int)
    (store : List RawSample) : List PivotRow :=
  let a := store.filter (fun r =>
    decide (startI ≤ r.time) && decide (r.time < stopI) &&
      r.measurement == "sensors" && r.deviceid == deviceid)
  let b := store.filter (fun r =>
    decide (startI ≤ r.time) && decide (r.time < stopI) &&
      r.measurement == "bme280" && r.deviceid == deviceid)
  let rows := a ++ b
  (distinctFirst (rows.map (fun r => r.time))).map (fun t =>
    ⟨t, pivotCell rows t "temperature", pivotCell rows t "humidity",
      pivotCell rows t "pressure"⟩)

/-- One element of the `points` list `device_data` returns. -/
structure DataPoint where
  time : Option String
  temperature : Option Rat
  humidity : Option Rat
  pressure : Option Rat
deriving DecidableEq, Repr

/-- The body `device_data` returns: the `error` key is present exactly in
the `except` branch, `stop` is `none` when the echoed Python value is
`None`. -/
structure DataResponse where
  error : Option String
  deviceid : String
  start : String
  stop : Option String
  points : List DataPoint
deriving DecidableEq, Repr

/-- The reshaping of one pivoted record into a response point
(`api/main.py:247`): `r.get_time()` is the row's UTC-aware timestamp,
rendered through `iso_seconds_moscow`; the three field columns are copied
as they are (`values.get` yields `None` for an absent column). -/
def mkPoint (r : PivotRow) : DataPoint :=
  ⟨iso_seconds_moscow (some ⟨r.time, 0, some 0⟩), r.temperature,
    r.humidity, r.pressure⟩

/-- The stop bound of the queried window (`api/main.py:225`): `stop` is
tested for Python truthiness; when truthy it is parsed like `start`
(`stopFromiso` being `fromisoformat`'s answer for it), otherwise the bound
is `datetime.now(utc).isoformat()`. -/
def resolved_stop_utc (stopFromiso : Option PyDateTime) (stop : Option String)
    (now_utc : PyDateTime) : String :=
  if truthyOpt stop then parse_moscow_time_to_utc stopFromiso (stop.getD "")
  else isoformatAuto now_utc

/-- `device_data` (`api/main.py:213`).  The store is external: `query`,
applied to the resolved `start_utc`/`stop_utc` strings, is its answer —
`Except.error e` when `q.query` raises an exception rendered as `e` (this
also covers a malformed `start`: the unparsed string reaches the Flux text
and the store rejects it), `Except.ok rows` when it returns the pivoted
records.  `now_utc` and `now_utc2` are the two separate `datetime.now(utc)`
calls (stop bound and echoed stop).  The `try`/`except Exception` makes the
operation total: the error branch is the structured error body. -/
def device_data (deviceid start : String) (stop : Option String)
    (startFromiso stopFromiso : Option PyDateTime)
    (now_utc now_utc2 : PyDateTime)
    (query : String → String → Except String (List PivotRow)) :
    DataResponse :=
  let start_utc := parse_moscow_time_to_utc startFromiso start
  let stop_utc := resolved_stop_utc stopFromiso stop now_utc
  match query start_utc stop_utc with
  | Except.ok rows =>
      ⟨none, deviceid, start,
        if truthyOpt stop then stop else iso_seconds_moscow (some now_utc2),
        rows.map mkPoint⟩
  | Except.error e => ⟨some e, deviceid, start, stop, []⟩

/-- The two bme280 samples of the C4 scenario: `temperature=21.5` at `T1`
and `humidity=44` at `T1+5s`, both for device `sensor-7`. -/
def sensor7Store (T1 : Int) : List RawSample :=
  [⟨T1, "bme280", "sensor-7", "temperature", 21.5⟩,
   ⟨T1 + 5, "bme280", "sensor-7", "humidity", 44⟩]

/-- The trailing window of the directory and presence queries
(`range(start: -7d)`), in seconds. -/
def SEVEN_DAYS : Int := 604800

/-- A record of the directory query streams after `keep(columns:
["deviceid"])` conceptually: its timestamp, measurement and device tag
(an absent tag surfaces to Python as a falsy value, modelled by `""`). -/
structure TagRec where
  time : Int
  measurement : String
  deviceid : String
deriving DecidableEq, Repr

/-- The Flux pipeline of `list_devices` (`api/main.py:124`): the two
streams restricted to the trailing 7-day window and to their measurement,
projected to `deviceid`, per-stream `distinct`, `union`, `unique`, then
`sort(columns: ["deviceid"], desc: false)`. -/
def fluxListDevices (now : Int) (store : List TagRec) : List String :=
  let a := distinctFirst ((store.filter (fun r =>
    decide (now - SEVEN_DAYS ≤ r.time) && decide (r.time < now) &&
      r.measurement == "sensors")).map (fun r => r.deviceid))
  let b := distinctFirst ((store.filter (fun r =>
    decide (now - SEVEN_DAYS ≤ r.time) && decide (r.time < now) &&
      r.measurement == "bme280")).map (fun r => r.deviceid))
  List.insertionSort (fun x y => x ≤ y) (distinctFirst (a ++ b))

/-- `list_devices` (`api/main.py:119`): the Python list comprehension keeps
only records whose `deviceid` is truthy. -/
def list_devices (now : Int) (store : List TagRec) : List String :=
  (fluxListDevices now store).filter (fun s => s != "")

/-- A record of the status stream as `list_online` queries it. -/
structure StatusSample where
  time : Int
  measurement : String
  deviceid : String
  field : String
  value : String
deriving DecidableEq, Repr

/-- The `range`/`filter` stage of the `list_online` pipeline
(`api/main.py:150`): trailing 7-day window, measurement `devices` or
`status`, field `value`.  The store hands records back time-ascending, so
list order is time order. -/
def onlineWindow (now : Int) (store : List StatusSample) : List StatusSample :=
  store.filter (fun r =>
    decide (now - SEVEN_DAYS ≤ r.time) && decide (r.time < now) &&
      (r.measurement == "devices" || r.measurement == "status") &&
      r.field == "value")

/-- The value of a device's latest status sample within the trailing
window: `group(columns: ["deviceid"])` followed by `last()`, i.e. the last
in-window record of the device in the store's time order. -/
def lastStatusValue (now : Int) (store : List StatusSample) (d : String) :
    Option String :=
  (((onlineWindow now store).filter (fun r => r.deviceid == d)).map
    (fun r => r.value)).getLast?

/-- The rest of the `list_online` Flux pipeline: keep each device whose
latest in-window value is exactly `"online"`, then `unique`. -/
def fluxListOnline (now : Int) (store : List StatusSample) : List String :=
  let w := onlineWindow now store
  let lastRows := (distinctFirst (w.map (fun r => r.deviceid))).filterMap
    (fun d => match lastStatusValue now store d with
      | some v => if v == "online" then some d else none
      | none => none)
  distinctFirst lastRows

/-- `list_online` (`api/main.py:145`): Python keeps the truthy ids and
returns `sorted(ids)`. -/
def list_online (now : Int) (store : List StatusSample) : List String :=
  List.insertionSort (fun x y => x ≤ y)
    ((fluxListOnline now store).filter (fun s => s != ""))

end IotSensorApi

namespace IotSensorApi

/-- `distinctFirst` never duplicates, whatever duplicate-free prefix it
starts from. -/
theorem distinctFirst_aux_nodup {α : Type} [DecidableEq α] (l : List α) :
    ∀ acc : List α, acc.Nodup →
      (l.foldl (fun acc x => if x ∈ acc then acc else acc ++ [x]) acc).Nodup := by
  induction l with
  | nil => exact fun acc h => h
  | cons x l ih =>
      intro acc h
      simp only [List.foldl_cons]
      by_cases hx : x ∈ acc
      · simpa [hx] using ih acc h
      · have h2 : (acc ++ [x]).Nodup := by simp [List.nodup_append, h, hx]
        simpa [hx] using ih (acc ++ [x]) h2

/-- The result of `distinctFirst` is duplicate-free. -/
theorem distinctFirst_nodup {α : Type} [DecidableEq α] (l : List α) :
    (distinctFirst l).Nodup :=
  distinctFirst_aux_nodup l [] (by simp)

/-- Folding `distinctFirst`'s step keeps exactly the elements of the
accumulator and of the remaining list. -/
theorem mem_distinctFirst_aux {α : Type} [DecidableEq α] (l : List α)
    (x : α) : ∀ acc : List α,
      (x ∈ l.foldl (fun acc y => if y ∈ acc then acc else acc ++ [y]) acc ↔
        x ∈ acc ∨ x ∈ l) := by
  induction l with
  | nil => simp
  | cons y l ih =>
      intro acc
      simp only [List.foldl_cons, List.mem_cons]
      rw [ih]
      by_cases hy : y ∈ acc
      · simp only [hy, if_true]
        constructor
        · rintro (h | h)
          · exact Or.inl h
          · exact Or.inr (Or.inr h)
        · rintro (h | rfl | h)
          · exact Or.inl h
          · exact Or.inl hy
          · exact Or.inr h
      · simp [hy, List.mem_append, or_assoc]

/-- `distinctFirst` keeps exactly the elements of its input. -/
theorem mem_distinctFirst {α : Type} [DecidableEq α] (l : List α) (x : α) :
    x ∈ distinctFirst l ↔ x ∈ l := by
  simp [distinctFirst, mem_distinctFirst_aux]

/-- A weakly sorted duplicate-free list is strictly sorted. -/
theorem sorted_lt_of_le_nodup {α : Type} [LinearOrder α] {l : List α}
    (hs : l.Sorted (fun x y => x ≤ y)) (hn : l.Nodup) :
    l.Sorted (fun x y => x < y) :=
  (hs.and hn).imp fun h => lt_of_le_of_ne h.1 h.2

/-- C1: Round-trip of the Time Translator.  A local display string with zero
sub-second component that parses as a naive local datetime is exactly the
`timespec="seconds"` rendering `isoformatSec ⟨wall, 0, none⟩` of a naive
wall-clock value, and `fromisoformat` maps it to `⟨wall, 0, none⟩`.
Converting that parse result to its UTC range-bound instant with
`parse_moscow_to_utc_dt` and rendering the resulting UTC instant back with
`iso_seconds_moscow` reproduces the display string exactly. -/
theorem time_translator_round_trip (wall : Int) :
    iso_seconds_moscow (some (parse_moscow_to_utc_dt ⟨wall, 0, none⟩)) =
      some (isoformatSec ⟨wall, 0, none⟩) := by
  have h : wall - MOSCOW_OFF + 0 - 0 + MOSCOW_OFF = wall := by ring
  simp [iso_seconds_moscow, parse_moscow_to_utc_dt, astimezone, isoformatSec, h]

/-- C2: the code does not pass offset-carrying strings through unchanged.
`fromisoformat` succeeds on `"2024-01-01T00:00:00+00:00"` (yielding the
aware UTC datetime with wall clock 1704067200), so the `except ValueError`
fallback is not reached: `replace(tzinfo=MOSCOW_TZ)` re-stamps the value as
Moscow wall time and the function returns a string denoting an instant three
hours earlier, contradicting its own comment ("if a timezone is already
present, use as is"). -/
theorem parse_moscow_time_to_utc_rewrites_offset_string :
    parse_moscow_time_to_utc (some ⟨1704067200, 0, some 0⟩)
        "2024-01-01T00:00:00+00:00" = "2023-12-31T21:00:00+00:00" ∧
    parse_moscow_time_to_utc (some ⟨1704067200, 0, some 0⟩)
        "2024-01-01T00:00:00+00:00" ≠ "2024-01-01T00:00:00+00:00" := by
  constructor <;> decide

/-- C3: `device_data` never raises to the transport layer — it is a total
function into `DataResponse` — and whenever the issued store call fails
(which is where a malformed `start`, a transport fault or a reshape fault
surface), the returned HTTP-success body carries the error description,
the echoed device id, the echoed `start`/`stop` strings, and an empty
point sequence. -/
theorem device_data_structured_error (deviceid start : String)
    (stop : Option String) (startFromiso stopFromiso : Option PyDateTime)
    (now_utc now_utc2 : PyDateTime)
    (query : String → String → Except String (List PivotRow)) (e : String)
    (h : query (parse_moscow_time_to_utc startFromiso start)
        (resolved_stop_utc stopFromiso stop now_utc) = Except.error e) :
    device_data deviceid start stop startFromiso stopFromiso now_utc
        now_utc2 query = ⟨some e, deviceid, start, stop, []⟩ := by
  simp [device_data, h]

/-- C3 witness: a malformed `start` (so `fromisoformat` fails and the raw
string reaches the store, which rejects the query) yields the structured
error body with echoed fields and no points. -/
theorem device_data_structured_error_witness :
    device_data "dev" "not-a-time" none none none ⟨0, 0, some 0⟩
        ⟨0, 0, some 0⟩ (fun _ _ => Except.error "store failure") =
      ⟨some "store failure", "dev", "not-a-time", none, []⟩ :=
  device_data_structured_error "dev" "not-a-time" none none none
    ⟨0, 0, some 0⟩ ⟨0, 0, some 0⟩ (fun _ _ => Except.error "store failure")
    "store failure" rfl

/-- C4: pivot reshaping never backfills fields across timestamps.  In the
spec's scenario — device `sensor-7` with a temperature-only bme280 sample
at `T1` and a humidity-only one at `T1+5s`, queried over the window
`[T1, T1+10s)` — `device_data` yields exactly two points: the first with
temperature set and humidity/pressure absent, the second with humidity set
and temperature/pressure absent, whatever the echoed strings, parse
results and clock reads are. -/
theorem device_data_no_backfill (T1 : Int) (start stopStr : String)
    (startFromiso stopFromiso : Option PyDateTime)
    (now_utc now_utc2 : PyDateTime) :
    (device_data "sensor-7" start (some stopStr) startFromiso stopFromiso
        now_utc now_utc2
        (fun _ _ => Except.ok
          (fluxDataQuery "sensor-7" T1 (T1 + 10) (sensor7Store T1)))).points.map
        (fun p => (p.temperature, p.humidity, p.pressure)) =
      [(some 21.5, none, none), (none, some 44, none)] := by
  have h1 : T1 ≤ T1 + 5 := by omega
  have h2 : T1 + 5 < T1 + 10 := by omega
  have h3 : T1 < T1 + 10 := by omega
  have h4 : ¬T1 + 5 = T1 := by omega
  have h5 : ¬T1 = T1 + 5 := by omega
  simp [device_data, fluxDataQuery, sensor7Store, distinctFirst, pivotCell,
    mkPoint, h1, h2, h3, h4, h5]

/-- C5: for every device id, every pattern of per-predicate failures and
every MQTT outcome, `delete_device` records one entry per enumerated
predicate — each predicate's entry depending only on that predicate's own
outcome, so no failure aborts the remaining attempts — the entry count is
the fixed 4, and `mqtt_cleared` is the (boolean) MQTT outcome even when
every store delete fails. -/
theorem delete_device_all_attempt (device_id : String)
    (deleteOk : String → Bool) (mqttOk : Bool) :
    (delete_device device_id deleteOk mqttOk).influx_deleted =
        (predicates device_id).map (fun pred => (pred, deleteOk pred)) ∧
    (delete_device device_id deleteOk mqttOk).influx_deleted.length = 4 ∧
    (delete_device device_id deleteOk mqttOk).mqtt_cleared = mqttOk :=
  ⟨rfl, rfl, rfl⟩

/-- C6 counterexample: the cookie carries exactly the configured secret
`"secret"`, yet access is denied, because the non-matching query token is
truthy and shadows every later source — so "any one of the four token
sources matching grants access" is false. -/
theorem verify_token_match_shadowed :
    verify_token (some "secret") (some "wrong") none none (some "secret")
      = false := by decide

/-- `if x != y then false else true` is just `x == y`. -/
theorem ite_bne_false {α : Type} [BEq α] (x y : α) :
    (if x != y then false else true) = (x == y) := by
  cases h : x == y <;> simp [bne, h]

/-- For a non-empty `s`, the first-truthy chain of `verify_token` and
`firstTruthy` agree on whether they produce `some s` (they differ only when
every source is falsy, and then neither is `some s`). -/
theorem pyOr_chain_beq (q h b c : Option String) (s : String) (hs : s ≠ "") :
    (pyOr (pyOr (pyOr q h) b) c == some s) =
      (firstTruthy [q, h, b, c] == some s) := by
  by_cases h1 : truthyOpt q
  · simp [pyOr, firstTruthy, h1]
  · by_cases h2 : truthyOpt h
    · simp [pyOr, firstTruthy, h1, h2]
    · by_cases h3 : truthyOpt b
      · simp [pyOr, firstTruthy, h1, h2, h3]
      · by_cases h4 : truthyOpt c
        · simp [pyOr, firstTruthy, h1, h2, h3, h4]
        · have hs2 : ("" : String) ≠ s := fun hh => hs hh.symm
          rcases c with _ | w
          · simp [pyOr, firstTruthy, h1, h2, h3]
          · have hw : w = "" := by
              by_contra hne
              exact h4 (by simp [truthyOpt, hne])
            subst hw
            simp [pyOr, firstTruthy, h1, h2, h3, h4, hs2]

/-- C6 (amended): the Access Gate grants access exactly when a non-empty
secret is configured and the *first* non-empty token source, in the order
query parameter, custom header, bearer authorization, cookie, equals it;
otherwise (no secret, no token, or a first token that does not match —
even if a later source matches) it yields an unauthorized failure. -/
theorem verify_token_eq_grantedSpec (api_token token_q token_h bearer
    token_cookie : Option String) :
    verify_token api_token token_q token_h bearer token_cookie =
      grantedSpec api_token token_q token_h bearer token_cookie := by
  rcases api_token with _ | s
  · simp [verify_token, grantedSpec, truthyOpt]
  · by_cases hs : s = ""
    · subst hs; simp [verify_token, grantedSpec, truthyOpt]
    · have hse : (s != "") = true := bne_iff_ne.mpr hs
      have hts : truthyOpt (some s) = true := hse
      simp only [verify_token, grantedSpec, hts, hse, Bool.not_true,
        Bool.false_or, Bool.true_and, ite_bne_false]
      exact pyOr_chain_beq token_q token_h bearer token_cookie s hs

/-- C7: for every store response (any clock read, any record stream), the
sequence `list_devices` returns is strictly ascending by identifier string
and duplicate-free. -/
theorem list_devices_strictly_ascending (now : Int) (store : List TagRec) :
    (list_devices now store).Sorted (fun x y => x < y) ∧
      (list_devices now store).Nodup := by
  have hsort : (fluxListDevices now store).Sorted (fun x y => x ≤ y) := by
    unfold fluxListDevices
    exact List.sorted_insertionSort _ _
  have hnodup : (fluxListDevices now store).Nodup := by
    unfold fluxListDevices
    exact (List.perm_insertionSort _ _).nodup_iff.mpr (distinctFirst_nodup _)
  have hlt := sorted_lt_of_le_nodup hsort hnodup
  exact ⟨List.Pairwise.sublist (List.filter_sublist _) hlt,
    List.Nodup.sublist (List.filter_sublist _) hnodup⟩

/-- C8: for every store response, `list_online` contains only devices whose
latest status sample within the trailing window is exactly the `"online"`
sentinel, and its result is duplicate-free and sorted ascending (strictly,
by the first part). -/
theorem list_online_only_latest_online (now : Int) (store : List StatusSample) :
    (∀ d ∈ list_online now store, lastStatusValue now store d = some "online") ∧
      (list_online now store).Sorted (fun x y => x ≤ y) ∧
      (list_online now store).Nodup := by
  refine ⟨?_, List.sorted_insertionSort _ _, ?_⟩
  · intro d hd
    have hd1 : d ∈ (fluxListOnline now store).filter (fun s => s != "") :=
      (List.perm_insertionSort _ _).mem_iff.mp hd
    have hd2 : d ∈ fluxListOnline now store := List.mem_of_mem_filter hd1
    rw [fluxListOnline, mem_distinctFirst, List.mem_filterMap] at hd2
    obtain ⟨a, _, ha⟩ := hd2
    revert ha
    cases hls : lastStatusValue now store a with
    | none => simp
    | some v =>
        simp only []
        by_cases hv : v == "online"
        · intro ha
          have hav : a = d := by
            simpa [hv] using ha
          have hvv : v = "online" := by
            simpa using hv
          rw [← hav, hls, hvv]
        · intro ha
          simp [hv] at ha
  · exact (List.perm_insertionSort _ _).nodup_iff.mpr
      (List.Nodup.sublist (List.filter_sublist _) (distinctFirst_nodup _))

/-- C8 witness: a store holding one in-window status record
`(time 0, "status", "dev", "value", "online")` puts `"dev"` in
`list_online` at clock read 1, and its latest in-window sample is indeed
the online sentinel. -/
theorem list_online_only_latest_online_witness :
    lastStatusValue 1 [⟨0, "status", "dev", "value", "online"⟩] "dev" =
      some "online" :=
  (list_online_only_latest_online 1
    [⟨0, "status", "dev", "value", "online"⟩]).1 "dev" (by decide)

/-- C9: when the status-stream query and the data-stream query both return
no samples, `device_status` answers `online = false`, `statustime = null`
and `lastdatatime = null`. -/
theorem device_status_empty (deviceid : String) :
    device_status deviceid [] [] = ⟨deviceid, false, none, none⟩ := rfl

/-- C10 counterexample: a request carrying the token query parameter with
the empty value (`?token=`) leaves the response without any `api_token`
cookie (`if token:` is false on `""`), so "every request that carries a
token query parameter gets the cookie" is false. -/
theorem persist_token_cookie_skips_empty :
    persist_token_cookie (some "") ⟨401, []⟩ = ⟨401, []⟩ := by decide

/-- C10 (amended): for every request carrying a *non-empty* token query
parameter, the middleware appends an `api_token` cookie holding exactly
that value to the outgoing response — whatever the inner response is,
including an unauthorized failure. -/
theorem persist_token_cookie_sets_cookie (token : String) (h : token ≠ "")
    (response : HttpResponse) :
    persist_token_cookie (some token) response =
      ⟨response.statusCode, response.cookies ++ [("api_token", token)]⟩ := by
  simp [persist_token_cookie, set_cookie, h]

/-- C10 witness: a request with `?token=tok` whose inner response is an
unauthorized failure still gets the `api_token` cookie. -/
theorem persist_token_cookie_sets_cookie_witness :
    persist_token_cookie (some "tok") ⟨401, []⟩ =
      ⟨401, [("api_token", "tok")]⟩ := by
  simpa using persist_token_cookie_sets_cookie "tok" (by decide) ⟨401, []⟩

end IotSensorApi
